import Mathlib

/-!
# Verification of the Telex webhook → classification → AI → reply pipeline

Shallow embedding of the repository under review (a FastAPI service that
receives Telex.im webhook events, classifies message text, answers via an
external AI provider, and delivers replies).  Sources embedded here:

* `app/models/schemas.py` — the data model (`EventType`, `User`, `Message`,
  `WebhookEvent`, `ActionResponse`).
* `app/api/webhook.py` — `handle_telex_webhook` (the router) and
  `process_message` (the background sequence).
* `app/services/yoruba_agent.py` — `YorubaAgent.get_response`,
  `get_greeting_response`, `get_help_response`.
* `app/services/telex_service.py` — `TelexService.validate_webhook_signature`
  (with a concrete executable HMAC-SHA256 over byte lists), `send_text_message`
  and `send_typing_action` as observable effects.

External I/O is modelled by an oracle (`World`) saying how the AI provider and
the message-delivery provider behave, and the background sequence is a pure
function from the oracle and the event to the list of externally observable
effects it attempts, in order.
-/

namespace Orunmila

/-! ## Data model (`app/models/schemas.py`)

Fields that no embedded code path reads (`timestamp`, `data`, `metadata`,
`message_type`, `reply_to_message_id` on inbound messages) are omitted; they
are opaque payload carried through unchanged.  All remaining fields follow the
Pydantic models exactly. -/

/-- `EventType` — the closed Pydantic `str` enum of recognized event kinds. -/
inductive EventType where
  | MESSAGE
  | MESSAGE_DELIVERED
  | MESSAGE_READ
  | USER_JOINED
  | USER_LEFT
  deriving DecidableEq, Repr

/-- The wire value of each `EventType` member (the string values of the
Pydantic enum in `schemas.py`). -/
def eventTypeValue : EventType → String
  | .MESSAGE => "message"
  | .MESSAGE_DELIVERED => "message.delivered"
  | .MESSAGE_READ => "message.read"
  | .USER_JOINED => "user.joined"
  | .USER_LEFT => "user.left"

/-- Pydantic validation of the `event_type` field: a raw string is accepted
exactly when it is the value of one of the five enum members; any other
string fails request-body validation. -/
def parseEventType (s : String) : Option EventType :=
  if s = "message" then some .MESSAGE
  else if s = "message.delivered" then some .MESSAGE_DELIVERED
  else if s = "message.read" then some .MESSAGE_READ
  else if s = "user.joined" then some .USER_JOINED
  else if s = "user.left" then some .USER_LEFT
  else none

/-- `User` — sender information.  Only `id` is required. -/
structure User where
  id : String
  username : Option String
  first_name : Option String
  last_name : Option String
  language_code : Option String
  deriving DecidableEq, Repr

/-- `Message` — an inbound message.  `text` is optional. -/
structure Message where
  message_id : String
  from_user : User
  chat_id : String
  text : Option String
  deriving DecidableEq, Repr

/-- `WebhookEvent` — the parsed inbound event. -/
structure WebhookEvent where
  event_id : String
  event_type : EventType
  message : Option Message
  deriving DecidableEq, Repr

/-- `ActionResponse` — the acknowledgment body returned by the webhook
endpoint. -/
structure ActionResponse where
  success : Bool
  message : Option String
  deriving DecidableEq, Repr

/-! ## Fixed texts (`app/services/yoruba_agent.py`, `app/api/webhook.py`)

Transcribed verbatim from the Python string literals (adjacent literals
concatenated).  Apostrophes are written with the `\x27` escape. -/

/-- The static greeting returned by `YorubaAgent.get_greeting_response`. -/
def greetingText : String :=
  "Ẹ káàbọ̀! (Welcome!) 🌟\n\nI am Orunmila, your guide to Yoruba history and culture. I\x27m here to answer your questions about:\n\n• Yoruba history and ancient kingdoms\n• Cultural practices and traditions\n• Religion and spirituality (Ifa, Orisha)\n• Language, proverbs, and sayings\n• Art, music, and dance\n• Festivals and celebrations\n• Notable historical figures\n\nFeel free to ask me anything about Yoruba heritage!"

/-- The static help text returned by `YorubaAgent.get_help_response`. -/
def helpText : String :=
  "📚 **How to Ask Questions**\n\nHere are some example questions you can ask:\n\n**History:**\n• Who was Oduduwa?\n• Tell me about the Oyo Empire\n• What is the significance of Ile-Ife?\n\n**Culture:**\n• What are Yoruba naming ceremonies like?\n• Explain the chieftaincy system\n\n**Religion:**\n• Who is Sango?\n• What is Ifa divination?\n\n**Arts:**\n• What are Gelede masks?\n• Tell me about Adire cloth\n\n**Language:**\n• Share a Yoruba proverb\n• How do you say hello in Yoruba?\n\nJust ask your question naturally, and I\x27ll do my best to help!"

/-- The fixed apology returned by `YorubaAgent.get_response` when the AI
provider call raises (the `except` branch of `get_response`). -/
def agentApology : String :=
  "Mo dùpẹ́ (Thank you) for your question. I encountered an issue while processing it. Please try rephrasing your question or ask about a specific aspect of Yoruba history and culture."

/-- The fixed apology sent by the fallback delivery in `process_message`
(the `except` branch of `process_message`). -/
def fallbackApology : String :=
  "Mo tọrọ gafara (I apologize). An error occurred while processing your message. Please try again."

/-! ## Python string primitives

`str.strip()` and `str.lower()` as used on message text, implemented
structurally over the character list so that concrete instances evaluate in
the kernel.  `lower` uses the ASCII case mapping, which is exhaustive for the
fixed trigger phrases the code compares against. -/

/-- The whitespace characters removed by Python `str.strip()` (ASCII range). -/
def pyIsSpace (c : Char) : Bool :=
  c == ' ' || c == '\t' || c == '\n' || c == '\x0d' || c == '\x0b' || c == '\x0c'

/-- Drop leading whitespace from a character list. -/
def dropLeadingSpace : List Char → List Char
  | [] => []
  | c :: cs => if pyIsSpace c then dropLeadingSpace cs else c :: cs

/-- Python `str.strip()`: remove leading and trailing whitespace. -/
def pyStrip (s : String) : String :=
  String.mk ((dropLeadingSpace (dropLeadingSpace s.data).reverse).reverse)

/-- Python `str.lower()` on one character (ASCII case mapping). -/
def pyCharLower (c : Char) : Char :=
  if 65 ≤ c.toNat ∧ c.toNat ≤ 90 then Char.ofNat (c.toNat + 32) else c

/-- Python `str.lower()`. -/
def pyLower (s : String) : String :=
  String.mk (s.data.map pyCharLower)

/-! ## Intent classification (`app/api/webhook.py`, lines 97 and 109–115)

`process_message` strips the text once (line 97) and then compares its
lowercase form against two fixed phrase lists.  `classify` packages the
strip-then-lowercase comparison as the spec\x27s `CommandClassifier`. -/

/-- The phrases routed to the canned greeting (line 109). -/
def greetingTriggers : List String := ["/start", "hello", "hi", "hey", "greetings"]

/-- The phrases routed to the canned help text (line 112). -/
def helpTriggers : List String := ["/help", "help", "what can you do"]

/-- The classified purpose of a message text. -/
inductive Intent where
  | Greeting
  | Help
  | General
  deriving DecidableEq, Repr

/-- Classification of a message text: strip (line 97), lowercase, and test
membership in the two trigger lists (lines 109 and 112); anything else falls
to the general branch (line 115). -/
def classify (text : String) : Intent :=
  let message_text := pyStrip text
  if greetingTriggers.contains (pyLower message_text) then .Greeting
  else if helpTriggers.contains (pyLower message_text) then .Help
  else .General

/-! ## The external world oracle and observable effects -/

/-- An externally observable side effect attempted by the background
sequence, in order of occurrence:

* `typing c` — the POST of a typing indicator to chat `c`
  (`TelexService.send_typing_action`; its own HTTP failure is swallowed
  inside `send_typing_action`, so it never alters control flow);
* `aiCall p` — the call `self.agent.run(p)` with the fully built prompt `p`
  (`YorubaAgent.get_response`);
* `send c t r` — the call `TelexService.send_text_message(chat_id := c,
  text := t, reply_to_message_id := r)`. -/
inductive Effect where
  | typing (chat_id : String)
  | aiCall (prompt : String)
  | send (chat_id : String) (text : String) (reply_to_message_id : Option String)
  deriving DecidableEq, Repr

/-- Oracle for the two external providers:

* `aiRaises` — whether `self.agent.run` raises for this task;
* `aiAnswer` — the answer text extracted from the result when it does not;
* `sendRaises c t r` — whether `send_text_message c t r` raises
  (non-2xx HTTP status or network failure). -/
structure World where
  aiRaises : Bool
  aiAnswer : String
  sendRaises : String → String → Option String → Bool

/-! ## AgentGateway (`app/services/yoruba_agent.py`, lines 95–137) -/

/-- `user_context` as built by `process_message` (lines 117–121): a dict with
keys `name`, `user_id`, `language`. -/
structure UserContext where
  name : String
  user_id : String
  language : Option String
  deriving DecidableEq, Repr

/-- Python `user.first_name or user.username or "friend"` (line 118):
`or` takes the first truthy operand, and both `None` and the empty string
are falsy. -/
def resolve_display_name (u : User) : String :=
  let fn := u.first_name.getD ""
  if fn ≠ "" then fn
  else
    let un := u.username.getD ""
    if un ≠ "" then un else "friend"

/-- The prompt enhancement of `get_response` (lines 108–111): when a user
context is present, prefix the question with one attribution line; otherwise
pass the question through unchanged. -/
def enhanced_question (question : String) (user_context : Option UserContext) : String :=
  match user_context with
  | some ctx => "Question from " ++ ctx.name ++ ": " ++ question
  | none => question

/-- `YorubaAgent.get_response` (lines 95–137): build the enhanced question,
call the provider with it, and return the extracted answer; the surrounding
`try`/`except` converts any provider failure into the fixed apology, so the
function is total and never raises to its caller.  Returns the list of
attempted external calls paired with the returned string. -/
def get_response (w : World) (question : String) (user_context : Option UserContext) :
    List Effect × String :=
  let prompt := enhanced_question question user_context
  ([Effect.aiCall prompt], if w.aiRaises then agentApology else w.aiAnswer)

/-! ## The background sequence (`app/api/webhook.py`, lines 82–146) -/

/-- Reply-text resolution inside `process_message` (lines 108–124): canned
texts for the greeting and help branches, `get_response` on the stripped
text with the built user context for the general branch. -/
def resolveReply (w : World) (message : Message) (t : String) : List Effect × String :=
  match classify t with
  | .Greeting => ([], greetingText)
  | .Help => ([], helpText)
  | .General =>
      let user := message.from_user
      let user_context : UserContext :=
        { name := resolve_display_name user
          user_id := user.id
          language := user.language_code }
      get_response w (pyStrip t) (some user_context)

/-- `process_message` (lines 82–146) as the list of external calls it
attempts, in order.  Control flow from the source:

* line 91: `if not message or not message.text: return` — a missing message,
  a missing text, or an empty text string (Python falsiness) ends the task
  with no external call;
* line 106: the typing indicator is always attempted next
  (`send_typing_action` swallows its own failures, so it cannot raise);
* lines 109–124: reply resolution (`resolveReply`); `get_response` catches
  provider failures internally, so it cannot raise either;
* lines 127–131: the main delivery, the only call in the `try` block that
  can raise;
* lines 135–146: on a raise, exactly one fallback delivery of
  `fallbackApology` to the same chat and reply target is attempted, and its
  own failure is swallowed (`except: pass`). -/
def process_message (w : World) (event : WebhookEvent) : List Effect :=
  match event.message with
  | none => []
  | some message =>
    match message.text with
    | none => []
    | some t =>
      if t = "" then []
      else
        let chat_id := message.chat_id
        let reply := resolveReply w message t
        let response_text := reply.2
        Effect.typing chat_id :: reply.1
          ++ [Effect.send chat_id response_text (some message.message_id)]
          ++ (if w.sendRaises chat_id response_text (some message.message_id) then
                [Effect.send chat_id fallbackApology (some message.message_id)]
              else [])

/-! ## SHA-256 and HMAC (the `hashlib`/`hmac` primitives used by
`TelexService.validate_webhook_signature`)

FIPS 180-4 SHA-256 over byte lists (bytes and 32-bit words are `Nat` values
reduced mod `2 ^ 32` where overflow matters), and RFC 2104 HMAC on top of it.
All recursion is structural so concrete digests evaluate in the kernel. -/

/-- Truncation to a 32-bit word. -/
def w32 (n : Nat) : Nat := n % 4294967296

/-- Right rotation of a 32-bit word by `n` bits. -/
def rotr (n x : Nat) : Nat := w32 ((x >>> n) ||| (x <<< (32 - n)))

/-- SHA-256 `Ch x y z = (x ∧ y) ⊕ (¬x ∧ z)` (complement within 32 bits). -/
def shaCh (x y z : Nat) : Nat := (x &&& y) ^^^ ((x ^^^ 4294967295) &&& z)

/-- SHA-256 `Maj x y z`. -/
def shaMaj (x y z : Nat) : Nat := (x &&& y) ^^^ (x &&& z) ^^^ (y &&& z)

/-- SHA-256 `Σ₀`. -/
def bigSigma0 (x : Nat) : Nat := rotr 2 x ^^^ rotr 13 x ^^^ rotr 22 x

/-- SHA-256 `Σ₁`. -/
def bigSigma1 (x : Nat) : Nat := rotr 6 x ^^^ rotr 11 x ^^^ rotr 25 x

/-- SHA-256 `σ₀`. -/
def smallSigma0 (x : Nat) : Nat := rotr 7 x ^^^ rotr 18 x ^^^ (x >>> 3)

/-- SHA-256 `σ₁`. -/
def smallSigma1 (x : Nat) : Nat := rotr 17 x ^^^ rotr 19 x ^^^ (x >>> 10)

/-- The 64 SHA-256 round constants (FIPS 180-4 §4.2.2, written in decimal). -/
def sha256K : List Nat :=
  [1116352408, 1899447441, 3049323471, 3921009573, 961987163, 1508970993,
   2453635748, 2870763221, 3624381080, 310598401, 607225278, 1426881987,
   1925078388, 2162078206, 2614888103, 3248222580, 3835390401, 4022224774,
   264347078, 604807628, 770255983, 1249150122, 1555081692, 1996064986,
   2554220882, 2821834349, 2952996808, 3210313671, 3336571891, 3584528711,
   113926993, 338241895, 666307205, 773529912, 1294757372, 1396182291,
   1695183700, 1986661051, 2177026350, 2456956037, 2730485921, 2820302411,
   3259730800, 3345764771, 3516065817, 3600352804, 4094571909, 275423344,
   430227734, 506948616, 659060556, 883997877, 958139571, 1322822218,
   1537002063, 1747873779, 1955562222, 2024104815, 2227730452, 2361852424,
   2428436474, 2756734187, 3204031479, 3329325298]

/-- The eight working variables of the compression function. -/
structure H32 where
  a : Nat
  b : Nat
  c : Nat
  d : Nat
  e : Nat
  f : Nat
  g : Nat
  h : Nat
  deriving DecidableEq, Repr

/-- The SHA-256 initial hash value (FIPS 180-4 §5.3.3, written in decimal). -/
def sha256init : H32 :=
  ⟨1779033703, 3144134277, 1013904242, 2773480762,
   1359893119, 2600822924, 528734635, 1541459225⟩

/-- One SHA-256 round with round constant `k` and schedule word `w`. -/
def sha256round (k w : Nat) (s : H32) : H32 :=
  let t1 := w32 (s.h + bigSigma1 s.e + shaCh s.e s.f s.g + k + w)
  let t2 := w32 (bigSigma0 s.a + shaMaj s.a s.b s.c)
  ⟨w32 (t1 + t2), s.a, s.b, s.c, w32 (s.d + t1), s.e, s.f, s.g⟩

/-- Next message-schedule word from the most recent words
(`recent` holds the schedule so far, newest first): `w32 (w[i-16] + σ₀ w[i-15] + w[i-7] + σ₁ w[i-2])`. -/
def scheduleStep (recent : List Nat) : Nat :=
  w32 (recent.getD 15 0 + smallSigma0 (recent.getD 14 0) + recent.getD 6 0
        + smallSigma1 (recent.getD 1 0))

/-- Extend the reversed schedule by `n` words. -/
def extendSchedule : Nat → List Nat → List Nat
  | 0, recent => recent
  | n + 1, recent => extendSchedule n (scheduleStep recent :: recent)

/-- The full 64-word message schedule of a 16-word block. -/
def schedule (block : List Nat) : List Nat :=
  (extendSchedule 48 block.reverse).reverse

/-- Compress one 16-word block into the running hash value. -/
def compressBlock (h : H32) (block : List Nat) : H32 :=
  let s := ((sha256K.zip (schedule block)).foldl (fun st kw => sha256round kw.1 kw.2 st) h)
  ⟨w32 (h.a + s.a), w32 (h.b + s.b), w32 (h.c + s.c), w32 (h.d + s.d),
   w32 (h.e + s.e), w32 (h.f + s.f), w32 (h.g + s.g), w32 (h.h + s.h)⟩

/-- Big-endian 32-bit words from a byte list (length a multiple of 4 after
padding; a trailing fragment cannot occur and is dropped). -/
def toWordsBE : List Nat → List Nat
  | b0 :: b1 :: b2 :: b3 :: rest =>
      (b0 * 16777216 + b1 * 65536 + b2 * 256 + b3) :: toWordsBE rest
  | _ => []

/-- Split a word list into 16-word blocks (the padded message length is a
multiple of 64 bytes, hence of 16 words). -/
def blocksOf16 : List Nat → List (List Nat)
  | w0 :: w1 :: w2 :: w3 :: w4 :: w5 :: w6 :: w7 ::
    w8 :: w9 :: w10 :: w11 :: w12 :: w13 :: w14 :: w15 :: rest =>
      [w0, w1, w2, w3, w4, w5, w6, w7, w8, w9, w10, w11, w12, w13, w14, w15] :: blocksOf16 rest
  | _ => []

/-- The 8-byte big-endian encoding of the message bit length. -/
def be8 (n : Nat) : List Nat :=
  [(n >>> 56) &&& 255, (n >>> 48) &&& 255, (n >>> 40) &&& 255, (n >>> 32) &&& 255,
   (n >>> 24) &&& 255, (n >>> 16) &&& 255, (n >>> 8) &&& 255, n &&& 255]

/-- The 4-byte big-endian encoding of a 32-bit word. -/
def wordBytesBE (x : Nat) : List Nat :=
  [(x >>> 24) &&& 255, (x >>> 16) &&& 255, (x >>> 8) &&& 255, x &&& 255]

/-- SHA-256 of a byte list, as the 32-byte digest. -/
def sha256bytes (msg : List Nat) : List Nat :=
  let padZeros := (119 - msg.length % 64) % 64
  let padded := msg ++ 0x80 :: (List.replicate padZeros 0 ++ be8 (msg.length * 8))
  let final := (blocksOf16 (toWordsBE padded)).foldl compressBlock sha256init
  [final.a, final.b, final.c, final.d, final.e, final.f, final.g, final.h].flatMap wordBytesBE

/-- RFC 2104 HMAC-SHA256 (block size 64 bytes). -/
def hmacSha256 (key msg : List Nat) : List Nat :=
  let k0 := if key.length > 64 then sha256bytes key else key
  let k := k0 ++ List.replicate (64 - k0.length) 0
  let ipad := k.map (fun b => b ^^^ 0x36)
  let opad := k.map (fun b => b ^^^ 0x5c)
  sha256bytes (opad ++ sha256bytes (ipad ++ msg))

/-- Lowercase hex digit of a value below 16 (`hexdigest` output alphabet). -/
def hexDigit (n : Nat) : Char :=
  if n < 10 then Char.ofNat (48 + n) else Char.ofNat (87 + n)

/-- Lowercase hex string of a byte list (`hexdigest`). -/
def bytesToHex (bs : List Nat) : String :=
  String.mk (bs.flatMap fun b => [hexDigit (b / 16), hexDigit (b % 16)])

/-- UTF-8 encoding of one character (Python `str.encode()`). -/
def utf8Bytes (c : Char) : List Nat :=
  let n := c.toNat
  if n < 0x80 then [n]
  else if n < 0x800 then
    [0xc0 ||| (n >>> 6), 0x80 ||| (n &&& 0x3f)]
  else if n < 0x10000 then
    [0xe0 ||| (n >>> 12), 0x80 ||| ((n >>> 6) &&& 0x3f), 0x80 ||| (n &&& 0x3f)]
  else
    [0xf0 ||| (n >>> 18), 0x80 ||| ((n >>> 12) &&& 0x3f), 0x80 ||| ((n >>> 6) &&& 0x3f),
     0x80 ||| (n &&& 0x3f)]

/-- Python `str.encode()` — the UTF-8 bytes of a string. -/
def strBytes (s : String) : List Nat := s.data.flatMap utf8Bytes

/-- The HMAC-SHA256 hex digest computed by `validate_webhook_signature`
(lines 126–130 of `telex_service.py`): key = the configured secret encoded
as UTF-8, message = the payload encoded as UTF-8. -/
def expected_signature (secret payload : String) : String :=
  bytesToHex (hmacSha256 (strBytes secret) (strBytes payload))

/-- `TelexService.validate_webhook_signature` (lines 105–135), with the
configured `settings.telex_webhook_secret` passed explicitly.  An
unconfigured secret is the empty string (the Pydantic default), which is
falsy, so validation is skipped and the function returns `True`; otherwise
the provided signature is compared against the HMAC-SHA256 hex digest with
`hmac.compare_digest` (string equality, constant-time in the source).  The
`try`/`except` returns `False` instead of raising on any internal error, so
the function is total. -/
def validate_webhook_signature (secret payload signature : String) : Bool :=
  if secret = "" then true
  else signature == expected_signature secret payload

/-! ## The router (`app/api/webhook.py`, lines 17–79) -/

/-- `handle_telex_webhook` (lines 29–72): the acknowledgment body paired with
whether a background `process_message` task was scheduled.  The f-string
rendering of the enum in the acknowledgment messages is modelled with the
enum wire value. -/
def handle_telex_webhook (event : WebhookEvent) : ActionResponse × Bool :=
  if event.event_type = .MESSAGE ∧ event.message.isSome then
    ({ success := true, message := some "Message received and being processed" }, true)
  else if event.event_type = .MESSAGE_DELIVERED ∨ event.event_type = .MESSAGE_READ then
    ({ success := true
       message := some ("Event " ++ eventTypeValue event.event_type ++ " acknowledged") }, false)
  else if event.event_type = .USER_JOINED ∨ event.event_type = .USER_LEFT then
    ({ success := true
       message := some ("Event " ++ eventTypeValue event.event_type ++ " acknowledged") }, false)
  else
    ({ success := true, message := some "Event type not handled" }, false)

/-- Outcome of a `POST /webhook/telex` request: either FastAPI rejects the
body during Pydantic validation (HTTP 422, the handler never runs), or the
handler runs and produces an acknowledgment plus a scheduling decision. -/
inductive EndpointResult where
  | validationError
  | ok (response : ActionResponse) (scheduled : Bool)
  deriving DecidableEq, Repr

/-- The endpoint seen from the wire, with the `event_type` field still raw:
Pydantic validates the closed enum field first (`schemas.py`, lines 21–27),
and only a recognized value reaches `handle_telex_webhook`. -/
def webhookEndpoint (event_id : String) (event_type : String) (message : Option Message) :
    EndpointResult :=
  match parseEventType event_type with
  | none => .validationError
  | some et =>
      let r := handle_telex_webhook { event_id := event_id, event_type := et, message := message }
      .ok r.1 r.2

/-- The webhook handler as it sees a full request: the signature-validation
block (lines 32–37 of `webhook.py`) is commented out in the source, so the
configured secret, the raw body, and the `X-Telex-Signature` header are never
consulted and every structurally valid event proceeds directly to routing. -/
def handle_telex_webhook_request (secret rawBody signature : String)
    (event : WebhookEvent) : ActionResponse × Bool :=
  handle_telex_webhook event

/-! ## Sample values used in concrete instances -/

/-- A sender with only the required `id` field populated. -/
def sampleUser : User :=
  { id := "U1", username := none, first_name := none, last_name := none, language_code := none }

/-- The inbound message of end-to-end scenario 1. -/
def sampleMessageHi : Message :=
  { message_id := "M1", from_user := sampleUser, chat_id := "C1", text := some "hi" }

/-- An oracle where both providers behave: the AI answers `"ANSWER"` and
every delivery succeeds. -/
def wNoFail : World :=
  { aiRaises := false, aiAnswer := "ANSWER", sendRaises := fun _ _ _ => false }

/-- An oracle where every delivery attempt fails. -/
def wSendFail : World :=
  { aiRaises := false, aiAnswer := "ANSWER", sendRaises := fun _ _ _ => true }

/-- An oracle where the AI provider call raises. -/
def wAgentDown : World :=
  { aiRaises := true, aiAnswer := "ANSWER", sendRaises := fun _ _ _ => false }


/-! ## Helper lemmas -/

set_option maxRecDepth 100000

/-- The resolved reply depends on the oracle only through the AI fields:
two worlds that agree on `aiRaises` and `aiAnswer` resolve every reply
identically (the delivery oracle is consulted only later). -/
theorem resolveReply_congr (w w₂ : World) (m : Message) (t : String)
    (ha : w₂.aiRaises = w.aiRaises) (hb : w₂.aiAnswer = w.aiAnswer) :
    resolveReply w₂ m t = resolveReply w m t := by
  unfold resolveReply
  cases classify t <;> simp [get_response, ha, hb]

/-- Unfolding of `process_message` on a message event with non-empty text. -/
theorem process_message_eq (w : World) (eid : String) (m : Message) (t : String)
    (ht : m.text = some t) (hne : t ≠ "") :
    process_message w { event_id := eid, event_type := .MESSAGE, message := some m } =
      Effect.typing m.chat_id :: (resolveReply w m t).1
        ++ [Effect.send m.chat_id (resolveReply w m t).2 (some m.message_id)]
        ++ (if w.sendRaises m.chat_id (resolveReply w m t).2 (some m.message_id) then
              [Effect.send m.chat_id fallbackApology (some m.message_id)]
            else []) := by
  unfold process_message
  simp [ht, hne]

/-! ## Claims -/

/-- Claim C1 (amended): for every inbound `MESSAGE` event whose message text
is empty or null, the background task returns at the guard on line 91 of
`webhook.py` and attempts no external call at all — no typing indicator, no
classification, no AI call, no delivery.  (The original claim also covered
whitespace-only text; `C1_counterexample` shows such text passes the Python
falsiness guard and is processed in full.) -/
theorem C1_empty_or_null_text_silent (w : World) (e : WebhookEvent) (m : Message)
    (hm : e.message = some m) (ht : m.text = none ∨ m.text = some "") :
    process_message w e = [] := by
  unfold process_message
  rcases ht with h | h <;> simp [hm, h]

/-- Witness for `C1_empty_or_null_text_silent` at an empty-text event. -/
theorem C1_witness :
    process_message wNoFail
      { event_id := "E1", event_type := .MESSAGE,
        message := some { message_id := "M1", from_user := sampleUser, chat_id := "C1",
                          text := some "" } } = [] :=
  C1_empty_or_null_text_silent wNoFail _ _ rfl (Or.inr rfl)

/-- Counterexample to claim C1 as stated: a whitespace-only text `"   "` is
truthy in Python, so the guard on line 91 does not fire; the background task
sends the typing indicator, classifies the stripped text (empty, hence
`General`), calls the AI provider, and delivers the answer. -/
theorem C1_counterexample :
    process_message wNoFail
      { event_id := "E1", event_type := .MESSAGE,
        message := some { message_id := "M1", from_user := sampleUser, chat_id := "C1",
                          text := some "   " } } =
      [Effect.typing "C1", Effect.aiCall "Question from friend: ",
       Effect.send "C1" "ANSWER" (some "M1")] := by
  decide

/-- Claim C2 (code bug): the spec requires an `event_type` outside the five
recognized kinds to be accepted and acknowledged as unhandled, but
`event_type` is a closed Pydantic enum (`schemas.py`, lines 21–27), so such a
payload fails request-body validation and the endpoint rejects it before
`handle_telex_webhook` runs; the "Event type not handled" branch is
unreachable for unknown kinds. -/
theorem C2_unknown_event_type_rejected :
    parseEventType "custom.event" = none
    ∧ webhookEndpoint "E2" "custom.event" (some sampleMessageHi) = .validationError
    ∧ webhookEndpoint "E2" "custom.event" none = .validationError := by
  decide

/-- Claim C3 (confirmed): whenever the AI provider call raises,
`YorubaAgent.get_response` returns the fixed apology string; the function is
total (the `except` on line 131 of `yoruba_agent.py` converts every provider
failure), so it never raises to its caller. -/
theorem C3_agent_failure_returns_apology (w : World) (q : String)
    (ctx : Option UserContext) (h : w.aiRaises = true) :
    (get_response w q ctx).2 = agentApology := by
  simp [get_response, h]

/-- Witness for `C3_agent_failure_returns_apology` with a concrete failing
provider. -/
theorem C3_witness :
    (get_response wAgentDown "Who was Oduduwa?" none).2 = agentApology :=
  C3_agent_failure_returns_apology wAgentDown "Who was Oduduwa?" none rfl

/-- Claim C4 (confirmed): when the main delivery raises, the trace of the
background task ends with exactly one fallback delivery of the fixed apology
to the same chat and the same reply target, and nothing after it; moreover
the trace does not depend on how the delivery oracle treats the fallback
call (it is never consulted on it), so a failing fallback is terminal and
silent — `process_message` is total, so nothing propagates. -/
theorem C4_failed_delivery_triggers_single_fallback (w : World) (eid : String)
    (m : Message) (t : String) (ht : m.text = some t) (hne : t ≠ "")
    (hfail : w.sendRaises m.chat_id (resolveReply w m t).2 (some m.message_id) = true) :
    process_message w { event_id := eid, event_type := .MESSAGE, message := some m } =
      Effect.typing m.chat_id :: (resolveReply w m t).1
        ++ [Effect.send m.chat_id (resolveReply w m t).2 (some m.message_id),
            Effect.send m.chat_id fallbackApology (some m.message_id)]
    ∧ ∀ w₂ : World, w₂.aiRaises = w.aiRaises → w₂.aiAnswer = w.aiAnswer →
        w₂.sendRaises m.chat_id (resolveReply w m t).2 (some m.message_id) = true →
        process_message w₂ { event_id := eid, event_type := .MESSAGE, message := some m } =
          process_message w { event_id := eid, event_type := .MESSAGE, message := some m } := by
  constructor
  · rw [process_message_eq w eid m t ht hne, hfail]
    simp
  · intro w₂ ha hb hc
    rw [process_message_eq w eid m t ht hne, process_message_eq w₂ eid m t ht hne,
        resolveReply_congr w w₂ m t ha hb, hc, hfail]

/-- Witness for `C4_failed_delivery_triggers_single_fallback`: every
delivery fails for the scenario-1 event, so the greeting send is followed by
exactly one apology send. -/
theorem C4_witness :
    process_message wSendFail
      { event_id := "E1", event_type := .MESSAGE, message := some sampleMessageHi } =
      Effect.typing sampleMessageHi.chat_id :: (resolveReply wSendFail sampleMessageHi "hi").1
        ++ [Effect.send sampleMessageHi.chat_id (resolveReply wSendFail sampleMessageHi "hi").2
              (some sampleMessageHi.message_id),
            Effect.send sampleMessageHi.chat_id fallbackApology
              (some sampleMessageHi.message_id)] :=
  (C4_failed_delivery_triggers_single_fallback wSendFail "E1" sampleMessageHi "hi"
    rfl (by decide) rfl).1

/-- Claim C5 (confirmed): classification is a function of the stripped,
lowercased text (hence deterministic, case-insensitive, and
whitespace-trimmed); a stripped-lowercased form in the greeting trigger list
classifies as `Greeting`, in the help trigger list as `Help`, any other
non-empty text as `General`; in particular `"  HELLO "` is a greeting and
`"What can you do"` is a help request. -/
theorem C5_classification :
    (∀ s₁ s₂ : String, pyLower (pyStrip s₁) = pyLower (pyStrip s₂) →
        classify s₁ = classify s₂)
    ∧ (∀ s : String, greetingTriggers.contains (pyLower (pyStrip s)) = true →
        classify s = .Greeting)
    ∧ (∀ s : String, greetingTriggers.contains (pyLower (pyStrip s)) = false →
        helpTriggers.contains (pyLower (pyStrip s)) = true → classify s = .Help)
    ∧ (∀ s : String, s ≠ "" → greetingTriggers.contains (pyLower (pyStrip s)) = false →
        helpTriggers.contains (pyLower (pyStrip s)) = false → classify s = .General)
    ∧ classify "  HELLO " = .Greeting
    ∧ classify "What can you do" = .Help := by
  refine ⟨fun s₁ s₂ h => ?_, fun s h => ?_, fun s h₁ h₂ => ?_, fun s _ h₁ h₂ => ?_,
    by decide, by decide⟩
  · simp only [classify]
    rw [h]
  · simp only [classify]
    rw [h]
    simp
  · simp only [classify]
    rw [h₁, h₂]
    simp
  · simp only [classify]
    rw [h₁, h₂]
    simp

/-- Witness for `C5_classification` at concrete inputs from each branch. -/
theorem C5_witness :
    classify " HI" = classify "hi  " ∧ classify "/start" = .Greeting
    ∧ classify " /HELP " = .Help ∧ classify "Who was Oduduwa?" = .General :=
  ⟨C5_classification.1 " HI" "hi  " (by decide),
   C5_classification.2.1 "/start" (by decide),
   C5_classification.2.2.1 " /HELP " (by decide) (by decide),
   C5_classification.2.2.2.1 "Who was Oduduwa?" (by decide) (by decide) (by decide)⟩

/-- Claim C6 (confirmed): with no configured secret (the empty-string
default, falsy in Python) `validate_webhook_signature` returns `True`
unconditionally; with a configured secret it returns `True` exactly when the
provided signature equals the HMAC-SHA256 hex digest of the payload under
the secret — so any signature that differs from the digest (in particular
any mutated one) is rejected, and a mutated payload is rejected exactly when
its digest differs.  The embedded function is total: the `except` branch
(returning `False` instead of raising) is the only failure path in the
source. -/
theorem C6_signature_validation :
    (∀ payload signature : String,
        validate_webhook_signature "" payload signature = true)
    ∧ (∀ secret payload signature : String, secret ≠ "" →
        (validate_webhook_signature secret payload signature = true ↔
          signature = expected_signature secret payload)) := by
  constructor
  · intro payload signature
    simp [validate_webhook_signature]
  · intro secret payload signature h
    simp [validate_webhook_signature, h]

/-- Witness for `C6_signature_validation`: the disabled-validation branch,
and acceptance of the correctly computed digest under a configured secret. -/
theorem C6_witness :
    validate_webhook_signature "" "payload" "anything" = true
    ∧ validate_webhook_signature "hook-secret" "payload"
        (expected_signature "hook-secret" "payload") = true :=
  ⟨C6_signature_validation.1 "payload" "anything",
   (C6_signature_validation.2 "hook-secret" "payload"
      (expected_signature "hook-secret" "payload") (by decide)).mpr rfl⟩

/-- Claim C7 (amended): the router performs no signature check at all — the
validation block on lines 32–37 of `webhook.py` is commented out — so even
with a secret configured, a structurally valid `MESSAGE` event whose
signature fails `validate_webhook_signature` is still acknowledged with
success and background processing is still scheduled; nothing is
short-circuited.  (The original claim said an invalid signature is rejected
before routing whenever a secret is configured; `C7_counterexample` refutes
it.) -/
theorem C7_router_skips_signature_check (secret rawBody signature eid : String)
    (m : Message)
    (hbad : validate_webhook_signature secret rawBody signature = false) :
    handle_telex_webhook_request secret rawBody signature
      { event_id := eid, event_type := .MESSAGE, message := some m } =
      ({ success := true, message := some "Message received and being processed" }, true) := by
  simp [handle_telex_webhook_request, handle_telex_webhook]

/-- Witness for `C7_router_skips_signature_check` at a concrete invalid
signature under a configured secret. -/
theorem C7_witness :
    handle_telex_webhook_request "topsecret" "rawbody" "deadbeef"
      { event_id := "E1", event_type := .MESSAGE, message := some sampleMessageHi } =
      ({ success := true, message := some "Message received and being processed" }, true) :=
  C7_router_skips_signature_check "topsecret" "rawbody" "deadbeef" "E1" sampleMessageHi
    (by decide)

/-- Counterexample to claim C7 as stated: with the secret `"topsecret"`
configured, the signature `"deadbeef"` of body `"rawbody"` is invalid, yet
the router acknowledges the event with success and schedules background
processing — no short-circuit with an error response occurs. -/
theorem C7_counterexample :
    validate_webhook_signature "topsecret" "rawbody" "deadbeef" = false
    ∧ handle_telex_webhook_request "topsecret" "rawbody" "deadbeef"
        { event_id := "E1", event_type := .MESSAGE, message := some sampleMessageHi } =
        ({ success := true, message := some "Message received and being processed" }, true) := by
  constructor
  · decide
  · decide

/-- Claim C8 (confirmed): with a user context present, the prompt handed to
the AI provider is the question prefixed with exactly one attribution line
naming the display name, and nothing else is changed; with no context the
question is passed through verbatim.  The display name resolves through
Python `or`: a truthy `first_name`, else a truthy `username`, else
`"friend"`; and in the general branch of the background task the prompt uses
exactly that resolved name with the stripped text. -/
theorem C8_prompt_attribution :
    (∀ (w : World) (q : String) (c : UserContext),
        (get_response w q (some c)).1 =
          [Effect.aiCall ("Question from " ++ c.name ++ ": " ++ q)])
    ∧ (∀ (w : World) (q : String), (get_response w q none).1 = [Effect.aiCall q])
    ∧ (∀ (u : User) (fn : String), u.first_name = some fn → fn ≠ "" →
        resolve_display_name u = fn)
    ∧ (∀ (u : User) (un : String), (u.first_name = none ∨ u.first_name = some "") →
        u.username = some un → un ≠ "" → resolve_display_name u = un)
    ∧ (∀ u : User, (u.first_name = none ∨ u.first_name = some "") →
        (u.username = none ∨ u.username = some "") → resolve_display_name u = "friend")
    ∧ (∀ (w : World) (m : Message) (t : String), classify t = .General →
        (resolveReply w m t).1 =
          [Effect.aiCall ("Question from " ++ resolve_display_name m.from_user
            ++ ": " ++ pyStrip t)]) := by
  refine ⟨fun w q c => rfl, fun w q => rfl, fun u fn h hne => ?_, fun u un h h2 hne => ?_,
    fun u h h2 => ?_, fun w m t h => ?_⟩
  · simp [resolve_display_name, h, hne]
  · rcases h with h | h <;> simp [resolve_display_name, h, h2, hne]
  · rcases h with h | h <;> rcases h2 with h2 | h2 <;> simp [resolve_display_name, h, h2]
  · simp [resolveReply, h, get_response, enhanced_question]

/-- Witness for `C8_prompt_attribution` at concrete users and a concrete
general question. -/
theorem C8_witness :
    resolve_display_name { id := "U1", username := some "ada", first_name := some "Ada",
                           last_name := none, language_code := none } = "Ada"
    ∧ resolve_display_name { id := "U1", username := some "ada", first_name := some "",
                             last_name := none, language_code := none } = "ada"
    ∧ resolve_display_name sampleUser = "friend"
    ∧ (resolveReply wNoFail { message_id := "M1", from_user := sampleUser, chat_id := "C1",
                              text := some " Who? " } " Who? ").1 =
        [Effect.aiCall ("Question from " ++ resolve_display_name sampleUser ++ ": "
          ++ pyStrip " Who? ")] :=
  ⟨C8_prompt_attribution.2.2.1 _ "Ada" rfl (by decide),
   C8_prompt_attribution.2.2.2.1 _ "ada" (Or.inr rfl) rfl (by decide),
   C8_prompt_attribution.2.2.2.2.1 sampleUser (Or.inl rfl) (Or.inl rfl),
   C8_prompt_attribution.2.2.2.2.2 wNoFail _ " Who? " (by decide)⟩

/-- Claim C9 (confirmed): for the scenario-1 event (`MESSAGE`, text `"hi"`,
chat `"C1"`, sender `"U1"`), the handler acknowledges with success and
schedules background processing; the background task sends a typing
indicator to `"C1"`, classifies `"hi"` as a greeting, and delivers the fixed
greeting text to `"C1"` replying to the original message id. -/
theorem C9_greeting_scenario (w : World) (eid mid : String)
    (hsend : w.sendRaises "C1" greetingText (some mid) = false) :
    handle_telex_webhook
      { event_id := eid, event_type := .MESSAGE,
        message := some { message_id := mid, from_user := sampleUser, chat_id := "C1",
                          text := some "hi" } } =
      ({ success := true, message := some "Message received and being processed" }, true)
    ∧ classify "hi" = .Greeting
    ∧ process_message w
        { event_id := eid, event_type := .MESSAGE,
          message := some { message_id := mid, from_user := sampleUser, chat_id := "C1",
                            text := some "hi" } } =
        [Effect.typing "C1", Effect.send "C1" greetingText (some mid)] := by
  have hc : classify "hi" = .Greeting := by decide
  refine ⟨by simp [handle_telex_webhook], hc, ?_⟩
  rw [process_message_eq w eid _ "hi" rfl (by decide)]
  simp [resolveReply, hc, hsend]

/-- Witness for `C9_greeting_scenario` in the no-failure world. -/
theorem C9_witness :
    process_message wNoFail
      { event_id := "E1", event_type := .MESSAGE,
        message := some { message_id := "M1", from_user := sampleUser, chat_id := "C1",
                          text := some "hi" } } =
      [Effect.typing "C1", Effect.send "C1" greetingText (some "M1")] :=
  (C9_greeting_scenario wNoFail "E1" "M1" rfl).2.2

/-- Claim C10 (confirmed): a `MESSAGE` event whose `message` field is null
falls through every handler branch to the final `else` (line 67 of
`webhook.py`): the handler acknowledges synchronously with `success = true`
and the text "Event type not handled" — the same response as an unhandled
kind — and schedules no background task. -/
theorem C10_message_event_without_message (eid : String) :
    handle_telex_webhook { event_id := eid, event_type := .MESSAGE, message := none } =
      ({ success := true, message := some "Event type not handled" }, false) := by
  simp [handle_telex_webhook]

end Orunmila
